import Mathlib

/-!
Verification of the tool module of the `llm` repository (`src/llm/tool.py`).

The module compiles a typed Python callable into a JSON-Schema-like tool
description and provides a `safe_call` invocation path that converts every
failure into a JSON error payload instead of raising.

The shallow embedding below translates the Python source:
  * JSON values are modelled by `JValue` (object fields keep insertion order,
    as Python dicts do).
  * Python type annotations relevant to the module are modelled by `PyBase`
    (classes, `X | None` unions, `enum.StrEnum` subclasses) and `Annotation`
    (missing / bare type / `typing.Annotated`).
  * Exceptions raised by the module are `ToolError` (`ValueError` /
    `TypeError` with their message); exceptions at invocation time are
    `PyErr`, carrying their `repr` string, which is all `format_exception`
    uses of them.
-/

namespace Llm

/-- A JSON value; objects are association lists in insertion order,
numbers are modelled as integers (their exact arithmetic is irrelevant
to this module). -/
inductive JValue where
  | null : JValue
  | bool : Bool → JValue
  | num : Int → JValue
  | str : String → JValue
  | arr : List JValue → JValue
  | obj : List (String × JValue) → JValue

/-- Key lookup in an association list, first match wins (objects built by
this module have no duplicate keys). -/
def lookupKey : List (String × JValue) → String → Option JValue
  | [], _ => none
  | (k2, v) :: rest, k => if k = k2 then some v else lookupKey rest k

/-- Key lookup in a JSON object; `none` on any non-object. -/
def JValue.lookup : JValue → String → Option JValue
  | .obj fields, k => lookupKey fields k
  | _, _ => none

/-- Whether a JSON value is an object (decodes from a Python `dict`). -/
def JValue.isObj : JValue → Bool
  | .obj _ => true
  | _ => false

/-- The Python type name of a decoded JSON value (`json.loads` maps JSON
values to these Python types). -/
def JValue.pyTypeName : JValue → String
  | .null => "NoneType"
  | .bool _ => "bool"
  | .num _ => "int"
  | .str _ => "str"
  | .arr _ => "list"
  | .obj _ => "dict"

/-- A Python base type as it can appear as the first argument of
`typing.Annotated`. `optional b` is the union `b | None` of a non-union,
non-None type `b` (Python flattens unions, so nesting never arises).
`pyStrEnum vs` is a subclass of `enum.StrEnum` whose member values, in
declaration order, are `vs`. `pyClass n` is any other class, displayed
as `n`. -/
inductive PyBase where
  | pyInt : PyBase
  | pyFloat : PyBase
  | pyList : PyBase
  | pyBool : PyBase
  | pyStr : PyBase
  | pyNone : PyBase
  | optional : PyBase → PyBase
  | pyStrEnum : List String → PyBase
  | pyClass : String → PyBase
  deriving DecidableEq

/-- How Python displays the type in an f-string (used by the
unsupported-parameter-type message). -/
def pyBaseRepr : PyBase → String
  | .pyInt => "<class \x27int\x27>"
  | .pyFloat => "<class \x27float\x27>"
  | .pyList => "<class \x27list\x27>"
  | .pyBool => "<class \x27bool\x27>"
  | .pyStr => "<class \x27str\x27>"
  | .pyNone => "<class \x27NoneType\x27>"
  | .optional b => pyBaseRepr b ++ " | None"
  | .pyStrEnum _ => "<enum \x27StrEnum subclass\x27>"
  | .pyClass n => "<class \x27" ++ n ++ "\x27>"

/-- One metadata argument of `typing.Annotated` (a string, or any
non-string object). -/
inductive PyMeta where
  | metaStr : String → PyMeta
  | metaOther : PyMeta
  deriving DecidableEq

/-- A parameter or return annotation: absent (`inspect.Parameter.empty`),
a bare type (`a: int`), or `typing.Annotated[base, meta...]`.
(`typing.Annotated` requires at least one metadata argument to be
written, but `convert_parameter` itself only tests the length.) -/
inductive Annotation where
  | empty : Annotation
  | plain : PyBase → Annotation
  | annotated : PyBase → List PyMeta → Annotation
  deriving DecidableEq

/-- Exceptions the module itself raises at construction time. -/
inductive ToolError where
  | valueError : String → ToolError
  | typeError : String → ToolError
  deriving DecidableEq

/-- An exception caught by `safe_call`, reduced to what
`format_exception` uses of it: its `repr` string. -/
structure PyErr where
  reprStr : String
  deriving DecidableEq

/-- `TYPEMAP` of tool.py: the fixed table from a base type to the emitted
JSON-schema `type`, covering the five scalar/array classes, their
`X | None` unions, and `types.NoneType`. -/
def TYPEMAP : PyBase → Option String
  | .pyInt => some "integer"
  | .optional .pyInt => some "integer"
  | .pyFloat => some "number"
  | .optional .pyFloat => some "number"
  | .pyList => some "array"
  | .optional .pyList => some "array"
  | .pyBool => some "boolean"
  | .optional .pyBool => some "boolean"
  | .pyStr => some "string"
  | .optional .pyStr => some "string"
  | .pyNone => some "null"
  | _ => none

/-- The `ValueError` message for a malformed parameter annotation. -/
def malformedAnnotationMsg : String :=
  "Function parameters must be annotated with typing.Annotated[<type>, \x27description\x27]"

/-- The `TypeError` for an unsupported parameter base type, naming the
offending type as the source f-string does. -/
def unsupportedTypeError (origin : PyBase) : ToolError :=
  .typeError ("Annotated parameter type " ++ pyBaseRepr origin ++ " not supported")

/-- `convert_parameter` of tool.py: compile one parameter annotation to its
JSON-schema fragment, or raise.  The source first requires the annotation
to be `Annotated` carrying exactly one metadata argument that is a string
(`get_origin(annotation) is Annotated and len(annotation.__metadata__) == 1
and isinstance(annotation.__metadata__[0], str)`), else raises `ValueError`.
It then looks the base type up in `TYPEMAP`; on a miss it evaluates
`issubclass(origin, enum.StrEnum)`: for a `StrEnum` subclass it emits
`type: string` plus the member values as `enum`; for any other class it
raises the unsupported-type `TypeError`; for a union instance (`X | None`)
`issubclass` itself raises `TypeError("issubclass() arg 1 must be a
class")`, since a union is not a class. -/
def convert_parameter ( annotation : Annotation) : Except ToolError JValue :=
  match annotation with
  | .annotated origin [.metaStr desc] =>
    match TYPEMAP origin with
    | some type_ => .ok (.obj [("description", .str desc), ("type", .str type_)])
    | none =>
      match origin with
      | .pyStrEnum values =>
        .ok (.obj [("description", .str desc), ("type", .str "string"),
                   ("enum", .arr (values.map JValue.str))])
      | .optional _ => .error (.typeError "issubclass() arg 1 must be a class")
      | _ => .error (unsupportedTypeError origin)
  | _ => .error (.valueError malformedAnnotationMsg)

/-- One hexadecimal digit (lowercase, as Python json emits). -/
def hexDigit (n : Nat) : Char :=
  if n < 10 then Char.ofNat (48 + n) else Char.ofNat (87 + n)

/-- Four-digit lowercase hexadecimal, for a `\uXXXX` escape. -/
def hex4 (n : Nat) : String :=
  String.mk [hexDigit (n / 4096 % 16), hexDigit (n / 256 % 16),
             hexDigit (n / 16 % 16), hexDigit (n % 16)]

/-- Escape one character inside a JSON string the way Python `json.dumps`
does by default (`ensure_ascii=True`): the two-character escapes, `\uXXXX`
for other control and non-ASCII characters (a surrogate pair beyond the
BMP), and the character itself for printable ASCII. -/
def jsonEscapeChar (c : Char) : String :=
  if c = '"' then "\\\""
  else if c = '\\' then "\\\\"
  else if c = '\x08' then "\\b"
  else if c = '\x0c' then "\\f"
  else if c = '\n' then "\\n"
  else if c = '\r' then "\\r"
  else if c = '\t' then "\\t"
  else if c.toNat < 0x20 ∨ 0x7f ≤ c.toNat then
    if c.toNat < 0x10000 then "\\u" ++ hex4 c.toNat
    else
      "\\u" ++ hex4 (0xd800 + (c.toNat - 0x10000) / 0x400) ++
      "\\u" ++ hex4 (0xdc00 + (c.toNat - 0x10000) % 0x400)
  else String.singleton c

/-- Escape a whole string for a JSON string literal. -/
def jsonEscape (s : String) : String :=
  s.data.foldl (fun acc c => acc ++ jsonEscapeChar c) ""

mutual

/-- Render a JSON value as Python `json.dumps` does with default options
(separators are a comma-space and a colon-space). -/
def jsonDumps : JValue → String
  | .null => "null"
  | .bool true => "true"
  | .bool false => "false"
  | .num n => toString n
  | .str s => "\"" ++ jsonEscape s ++ "\""
  | .arr vs => "[" ++ String.intercalate ", " (jsonDumpsList vs) ++ "]"
  | .obj fields => "\x7b" ++ String.intercalate ", " (jsonDumpsFields fields) ++ "\x7d"

/-- Render each element of a JSON array. -/
def jsonDumpsList : List JValue → List String
  | [] => []
  | v :: vs => jsonDumps v :: jsonDumpsList vs

/-- Render each `"key": value` entry of a JSON object. -/
def jsonDumpsFields : List (String × JValue) → List String
  | [] => []
  | (k, v) :: rest =>
    ("\"" ++ jsonEscape k ++ "\"" ++ ": " ++ jsonDumps v) :: jsonDumpsFields rest

end

/-- `format_exception` of tool.py:
`json.dumps({"is_error": True, "exception": repr(e)})`. -/
def format_exception (e : PyErr) : String :=
  jsonDumps (.obj [("is_error", .bool true), ("exception", .str e.reprStr)])

/-- `format_error` of tool.py:
`json.dumps({"is_error": True, "error": message})`. -/
def format_error (message : String) : String :=
  jsonDumps (.obj [("is_error", .bool true), ("error", .str message)])

/-- One declared parameter of a Python callable: its name, its annotation,
and whether it declares a default value (for the schema and for keyword
binding only presence matters, never the value). -/
structure PyParam where
  name : String
  annotation : Annotation
  hasDefault : Bool

/-- A Python callable as `Tool.__init__` introspects it: `__name__`,
`__doc__` (absent or a string), the signature's parameters in declaration
order, the return annotation, and the behaviour of the body once keyword
binding has succeeded: the bound keyword arguments either produce a string
result or raise. -/
structure PyFunction where
  name : String
  doc : Option String
  params : List PyParam
  returnAnnotation : Annotation
  body : List (String × JValue) → Except PyErr String

/-- Run `convert_parameter` over the parameters in order, pairing each
result with the parameter name, propagating the first failure (the dict
comprehension in `Tool.__init__`). -/
def convertParams : List PyParam → Except ToolError (List (String × JValue))
  | [] => .ok []
  | p :: ps =>
    match convert_parameter p.annotation with
    | .error e => .error e
    | .ok schema =>
      match convertParams ps with
      | .error e => .error e
      | .ok rest => .ok ((p.name, schema) :: rest)

/-- A constructed tool: the wrapped callable and the assembled schema. -/
structure Tool where
  function : PyFunction
  schema : JValue

/-- The schema `Tool.__init__` assembles on success: the base object
`{"type": "function", "function": {"name": ..., "description": ...}}`,
plus — only when the signature has at least one parameter — a
`parameters` key under `function` holding the compiled properties and the
declaration-ordered list of parameter names with no default. -/
def mkSchema (f : PyFunction) (props : List (String × JValue)) : JValue :=
  if f.params.isEmpty then
    .obj [("type", .str "function"),
          ("function", .obj [("name", .str f.name),
                             ("description", .str (f.doc.getD ""))])]
  else
    .obj [("type", .str "function"),
          ("function", .obj
            [("name", .str f.name),
             ("description", .str (f.doc.getD "")),
             ("parameters", .obj
               [("type", .str "object"),
                ("properties", .obj props),
                ("required", .arr
                  ((f.params.filter (fun p => !p.hasDefault)).map
                     (fun p => JValue.str p.name)))])])]

/-- `Tool.__init__` of tool.py: fails with `ValueError` when `__doc__` is
falsy (absent or the empty string) or when the return annotation is not
exactly the class `str`; otherwise compiles every parameter (propagating
`convert_parameter` failures as-is) and assembles the schema. -/
def Tool.init (f : PyFunction) : Except ToolError Tool :=
  if f.doc.getD "" = "" then
    .error (.valueError "Tool functions must have a doc comment description")
  else if f.returnAnnotation ≠ Annotation.plain .pyStr then
    .error (.valueError "Tool functions must return a string")
  else
    match convertParams f.params with
    | .error e => .error e
    | .ok props => .ok ⟨f, mkSchema f props⟩

/-- The `TypeError` CPython raises for `f(**x)` when `x` is not a
mapping. -/
def mappingTypeError (fname : String) (v : JValue) : PyErr :=
  ⟨"TypeError(\x27" ++ fname ++ "() argument after ** must be a mapping, not "
    ++ v.pyTypeName ++ "\x27)"⟩

/-- The `TypeError` CPython raises for an unexpected keyword argument. -/
def unexpectedKwError (fname key : String) : PyErr :=
  ⟨"TypeError(\x22" ++ fname ++ "() got an unexpected keyword argument \x27"
    ++ key ++ "\x27\x22)"⟩

/-- The `TypeError` CPython raises for missing required arguments (the
message is abbreviated to name the missing parameters; only that binding
fails with a `TypeError`, not the exact wording, matters to the module). -/
def missingArgError (fname : String) (names : List String) : PyErr :=
  ⟨"TypeError(\x27" ++ fname ++ "() missing required positional arguments: "
    ++ String.intercalate ", " names ++ "\x27)"⟩

/-- CPython keyword binding of `f(**v)` against `f`'s signature, all of
whose parameters are positional-or-keyword: a non-mapping raises; a key
that is no parameter name raises; a parameter with no default and no
matching key raises; otherwise the call proceeds with the decoded
fields as keyword arguments. -/
def bindKwargs (f : PyFunction) (v : JValue) : Except PyErr (List (String × JValue)) :=
  match v with
  | .obj fields =>
    match fields.find? (fun kv => f.params.all (fun p => p.name ≠ kv.1)) with
    | some kv => .error (unexpectedKwError f.name kv.1)
    | none =>
      match (f.params.filter
              (fun p => !p.hasDefault && (lookupKey fields p.name).isNone)) with
      | [] => .ok fields
      | missing => .error (missingArgError f.name (missing.map (·.name)))
  | _ => .error (mappingTypeError f.name v)

/-- `Tool.safe_call` of tool.py:
`try: return self.function(**json.loads(json_args)) except Exception as e:
return format_exception(e)`.  `loads` is the behaviour of `json.loads` on
the argument string (either a decoded value or the raised
`JSONDecodeError`); decoding, keyword binding and the body all run inside
the `try`, so each failure becomes `format_exception` of the exception. -/
def Tool.safe_call (t : Tool) (loads : String → Except PyErr JValue)
    (json_args : String) : String :=
  match loads json_args with
  | .error e => format_exception e
  | .ok v =>
    match bindKwargs t.function v with
    | .error e => format_exception e
    | .ok kwargs =>
      match t.function.body kwargs with
      | .error e => format_exception e
      | .ok result => result

/-- The list of parameter names under `function.parameters.required` of a
tool's schema (empty when the key chain or the array is absent). -/
def requiredNames (t : Tool) : List String :=
  match ((t.schema.lookup "function").bind
          (fun v => v.lookup "parameters")).bind
          (fun v => v.lookup "required") with
  | some (.arr vs) =>
    vs.filterMap (fun v => match v with | .str s => some s | _ => none)
  | _ => []

/-!  Concrete fixtures (mirroring the callables of `tests/test_tool.py`)
used to instantiate the theorems below at explicit inputs. -/

/-- A callable with one required integer parameter whose body raises
`ValueError` when called with `a = 7` and returns `"output"` otherwise. -/
def fW : PyFunction :=
  { name := "tool", doc := some "tool description",
    params := [⟨"a", .annotated .pyInt [.metaStr "a desc"], false⟩],
    returnAnnotation := .plain .pyStr,
    body := fun kw =>
      match lookupKey kw "a" with
      | some (.num 7) => .error ⟨"ValueError(\x27boom\x27)"⟩
      | _ => .ok "output" }

/-- The tool wrapping `fW`, with the schema `Tool.init` assembles for it. -/
def toolW : Tool :=
  ⟨fW, mkSchema fW [("a", .obj [("description", .str "a desc"),
                                ("type", .str "integer")])]⟩

/-- A `json.loads` behaviour covering the invocation scenarios of
`test_safe_call`: a well-typed object, an object triggering the body's
exception, an empty object, and a decode failure. -/
def loadsW : String → Except PyErr JValue := fun s =>
  if s = "A1" then .ok (.obj [("a", .num 1)])
  else if s = "A7" then .ok (.obj [("a", .num 7)])
  else if s = "E" then .ok (.obj [])
  else .error ⟨"JSONDecodeError(\x27Expecting value: line 1 column 1 (char 0)\x27)"⟩

/-- A valid zero-parameter callable whose body returns, as its ordinary
string result, exactly the text of an error payload. -/
def fEcho : PyFunction :=
  { name := "tool", doc := some "tool description", params := [],
    returnAnnotation := .plain .pyStr,
    body := fun _ => .ok (format_exception ⟨"ValueError(\x27boom\x27)"⟩) }

/-- The tool `Tool.init` constructs from `fEcho`. -/
def toolEcho : Tool := ⟨fEcho, mkSchema fEcho []⟩

/-- A valid callable with a required parameter of nullable type
(`str | None` and no default). -/
def fReqNullable : PyFunction :=
  { name := "tool", doc := some "tool description",
    params := [⟨"a", .annotated (.optional .pyStr) [.metaStr "a desc"], false⟩,
               ⟨"b", .annotated .pyInt [.metaStr "b desc"], true⟩],
    returnAnnotation := .plain .pyStr,
    body := fun _ => .ok "output" }

/-- The tool `Tool.init` constructs from `fReqNullable`. -/
def toolReqNullable : Tool :=
  ⟨fReqNullable,
   mkSchema fReqNullable
     [("a", .obj [("description", .str "a desc"), ("type", .str "string")]),
      ("b", .obj [("description", .str "b desc"), ("type", .str "integer")])]⟩

/-- A callable with no doc text (`test_missing_description`). -/
def fNoDoc : PyFunction :=
  { name := "tool", doc := none, params := [],
    returnAnnotation := .plain .pyStr, body := fun _ => .ok "output" }

/-- A callable with a doc text but no `str` return annotation
(`test_missing_return`). -/
def fBadRet : PyFunction :=
  { name := "tool", doc := some "tool description", params := [],
    returnAnnotation := .empty, body := fun _ => .ok "output" }

/-!  Helper lemmas shared by the claim theorems. -/

/-- A successful `Tool.init` means every check passed: the parameters
compiled to some property list and the resulting tool wraps the callable
with the schema `mkSchema` assembles from it. -/
theorem Tool.init_ok {f : PyFunction} {t : Tool} (h : Tool.init f = .ok t) :
    ∃ props, convertParams f.params = .ok props ∧ t = ⟨f, mkSchema f props⟩ := by
  unfold Tool.init at h
  split at h
  · cases h
  · split at h
    · cases h
    · cases hcp : convertParams f.params with
      | error e => rw [hcp] at h; cases h
      | ok props =>
        rw [hcp] at h
        cases h
        exact ⟨props, rfl, rfl⟩

/-- Recovering the parameter names from the rendered `required` array. -/
theorem filterMap_str_names (l : List PyParam) :
    l.filterMap
      ((fun v => match v with | JValue.str s => some s | _ => none) ∘
        fun p => JValue.str p.name) =
    l.map PyParam.name := by
  induction l with
  | nil => rfl
  | cons p ps ih => simpa using ih

/-- If every parameter's annotation compiles, the whole parameter list
compiles. -/
theorem convertParams_ok_of_forall (l : List PyParam)
    (h : ∀ p ∈ l, ∃ s, convert_parameter p.annotation = .ok s) :
    ∃ props, convertParams l = .ok props := by
  induction l with
  | nil => exact ⟨[], rfl⟩
  | cons p ps ih =>
    obtain ⟨s, hs⟩ := h p (by simp)
    obtain ⟨props, hprops⟩ := ih (fun q hq => h q (by simp [hq]))
    exact ⟨(p.name, s) :: props, by simp [convertParams, hs, hprops]⟩

/-- C2: for every description, each base type of the table of §4.1 emits
the `type` the table fixes (integer → "integer", floating point →
"number", boolean → "boolean", text → "string", unspecified-element
sequence → "array", `NoneType` → "null"), and each nullable variant of a
supported scalar emits a schema identical to that of its non-nullable
counterpart. -/
theorem typemap_table_nullable_invariant (d : String) :
    convert_parameter (.annotated .pyInt [.metaStr d]) =
      .ok (.obj [("description", .str d), ("type", .str "integer")]) ∧
    convert_parameter (.annotated .pyFloat [.metaStr d]) =
      .ok (.obj [("description", .str d), ("type", .str "number")]) ∧
    convert_parameter (.annotated .pyBool [.metaStr d]) =
      .ok (.obj [("description", .str d), ("type", .str "boolean")]) ∧
    convert_parameter (.annotated .pyStr [.metaStr d]) =
      .ok (.obj [("description", .str d), ("type", .str "string")]) ∧
    convert_parameter (.annotated .pyList [.metaStr d]) =
      .ok (.obj [("description", .str d), ("type", .str "array")]) ∧
    convert_parameter (.annotated .pyNone [.metaStr d]) =
      .ok (.obj [("description", .str d), ("type", .str "null")]) ∧
    convert_parameter (.annotated (.optional .pyInt) [.metaStr d]) =
      convert_parameter (.annotated .pyInt [.metaStr d]) ∧
    convert_parameter (.annotated (.optional .pyFloat) [.metaStr d]) =
      convert_parameter (.annotated .pyFloat [.metaStr d]) ∧
    convert_parameter (.annotated (.optional .pyBool) [.metaStr d]) =
      convert_parameter (.annotated .pyBool [.metaStr d]) ∧
    convert_parameter (.annotated (.optional .pyStr) [.metaStr d]) =
      convert_parameter (.annotated .pyStr [.metaStr d]) ∧
    convert_parameter (.annotated (.optional .pyList) [.metaStr d]) =
      convert_parameter (.annotated .pyList [.metaStr d]) :=
  ⟨rfl, rfl, rfl, rfl, rfl, rfl, rfl, rfl, rfl, rfl, rfl⟩

/-- C5: a parameter whose base type is a `StrEnum` subclass compiles to
`type: "string"` plus an `enum` array holding exactly the member values
in declaration order. -/
theorem enum_schema_exact (values : List String) (d : String) :
    convert_parameter (.annotated (.pyStrEnum values) [.metaStr d]) =
      .ok (.obj [("description", .str d), ("type", .str "string"),
                 ("enum", .arr (values.map JValue.str))]) := rfl

/-- C7: whenever a parameter's annotation is not `typing.Annotated` of a
base type with exactly one metadata argument that is a string, the
compiler fails with the malformed-annotation `ValueError`. -/
theorem malformed_annotation_valueerror (a : Annotation)
    (h : ¬ ∃ base d, a = .annotated base [.metaStr d]) :
    convert_parameter a = .error (.valueError malformedAnnotationMsg) := by
  match a with
  | .empty => rfl
  | .plain _ => rfl
  | .annotated b [] => rfl
  | .annotated b [.metaStr d] => exact absurd ⟨b, d, rfl⟩ h
  | .annotated b [.metaOther] => rfl
  | .annotated b (.metaStr d :: m2 :: rest) => rfl
  | .annotated b (.metaOther :: m2 :: rest) => rfl

/-- Witness for C7: the missing annotation (`test_missing_annotated`)
fails with the malformed-annotation `ValueError`. -/
theorem malformed_annotation_valueerror_witness :
    convert_parameter .empty = .error (.valueError malformedAnnotationMsg) :=
  malformed_annotation_valueerror .empty
    (fun ⟨_, _, hc⟩ => Annotation.noConfusion hc)

/-- Counterexample to C8 as stated: the base type `dict | None` is
outside the table of §4.1 and is not a `StrEnum` subclass, yet the
compiler does not produce the unsupported-parameter-type error naming the
type: `issubclass` is evaluated on a union, which raises its own
`TypeError("issubclass() arg 1 must be a class")`. -/
theorem unsupported_union_counterexample :
    convert_parameter (.annotated (.optional (.pyClass "dict")) [.metaStr "d"]) =
      .error (.typeError "issubclass() arg 1 must be a class") ∧
    ToolError.typeError "issubclass() arg 1 must be a class" ≠
      unsupportedTypeError (.optional (.pyClass "dict")) :=
  ⟨rfl, by decide⟩

/-- C8 amended: a well-formed annotation whose base type is a class not
in the table and not a `StrEnum` subclass fails with the
unsupported-parameter-type `TypeError` naming the type; a union base type
outside the table also fails at construction time, but with the
`TypeError` raised by the `issubclass` check itself, which does not name
the type. -/
theorem unsupported_type_error_amended (n d : String) :
    convert_parameter (.annotated (.pyClass n) [.metaStr d]) =
      .error (unsupportedTypeError (.pyClass n)) ∧
    (∀ b, TYPEMAP (.optional b) = none →
      convert_parameter (.annotated (.optional b) [.metaStr d]) =
        .error (.typeError "issubclass() arg 1 must be a class")) := by
  refine ⟨rfl, fun b hb => ?_⟩
  simp [convert_parameter, hb]

/-- Witness for the amended C8 at concrete types: `object` (as in
`test_unsupported_parameters`) and the union `set | None`. -/
theorem unsupported_type_error_amended_witness :
    convert_parameter (.annotated (.pyClass "object") [.metaStr "a desc"]) =
      .error (unsupportedTypeError (.pyClass "object")) ∧
    convert_parameter (.annotated (.optional (.pyClass "set")) [.metaStr "d"]) =
      .error (.typeError "issubclass() arg 1 must be a class") :=
  ⟨(unsupported_type_error_amended "object" "a desc").1,
   (unsupported_type_error_amended "object" "d").2 (.pyClass "set") rfl⟩

/-- C4: in the schema of every successfully constructed tool, the
`parameters` key under `function` is absent exactly when the callable
declares zero parameters. -/
theorem parameters_key_iff_params_nonempty (f : PyFunction) (t : Tool)
    (h : Tool.init f = .ok t) :
    ((t.schema.lookup "function").bind (fun v => v.lookup "parameters") = none)
      ↔ f.params = [] := by
  obtain ⟨props, hcp, ht⟩ := Tool.init_ok h
  subst ht
  rcases hps : f.params with _ | ⟨p, ps⟩ <;>
    simp [mkSchema, hps, JValue.lookup, lookupKey]

/-- Witness for C4: the zero-parameter tool of `test_no_parameters` has
no `parameters` key; the one-parameter tool does. -/
theorem parameters_key_witness :
    (((toolEcho.schema.lookup "function").bind
        (fun v => v.lookup "parameters") = none) ↔ fEcho.params = []) ∧
    (((toolW.schema.lookup "function").bind
        (fun v => v.lookup "parameters") = none) ↔ fW.params = []) :=
  ⟨parameters_key_iff_params_nonempty fEcho toolEcho rfl,
   parameters_key_iff_params_nonempty fW toolW rfl⟩

/-- C3: for every successfully constructed tool with distinct parameter
names, a parameter's name is in the schema's `required` list exactly when
the parameter declares no default — independently per parameter, and in
particular independently of the nullability of its type, which the
statement never consults. -/
theorem required_iff_no_default (f : PyFunction) (t : Tool)
    (h : Tool.init f = .ok t)
    (hnd : (f.params.map PyParam.name).Nodup)
    (p : PyParam) (hp : p ∈ f.params) :
    p.name ∈ requiredNames t ↔ p.hasDefault = false := by
  obtain ⟨props, hcp, ht⟩ := Tool.init_ok h
  subst ht
  have hne : f.params.isEmpty = false := by
    cases hps : f.params with
    | nil => rw [hps] at hp; cases hp
    | cons a l => rfl
  have hreq : requiredNames ⟨f, mkSchema f props⟩ =
      (f.params.filter (fun q => !q.hasDefault)).map PyParam.name := by
    rw [mkSchema, if_neg (by simp [hne])]
    simp [requiredNames, JValue.lookup, lookupKey, filterMap_str_names]
  rw [hreq]
  constructor
  · intro hmem
    obtain ⟨q, hq, hqname⟩ := List.mem_map.mp hmem
    obtain ⟨hq1, hq2⟩ := List.mem_filter.mp hq
    have hqp : q = p := List.inj_on_of_nodup_map hnd hq1 hp hqname
    rw [hqp] at hq2
    simpa using hq2
  · intro hpd
    exact List.mem_map_of_mem _
      (List.mem_filter.mpr ⟨hp, by simp [hpd]⟩)

/-- Witness for C3 on the tool of `fReqNullable`: the nullable-typed
parameter `a` with no default is in `required`; the parameter `b` with a
default is not. -/
theorem required_iff_no_default_witness :
    ("a" ∈ requiredNames toolReqNullable ↔ (false : Bool) = false) ∧
    ("b" ∈ requiredNames toolReqNullable ↔ (true : Bool) = false) :=
  ⟨required_iff_no_default fReqNullable toolReqNullable rfl (by decide)
     ⟨"a", .annotated (.optional .pyStr) [.metaStr "a desc"], false⟩
     (by simp [fReqNullable]),
   required_iff_no_default fReqNullable toolReqNullable rfl (by decide)
     ⟨"b", .annotated .pyInt [.metaStr "b desc"], true⟩
     (by simp [fReqNullable])⟩

/-- C6: construction fails with the missing-description `ValueError` when
the doc text is absent or empty; with the doc text present, it fails with
the invalid-return-type `ValueError` when the return annotation is not
the class `str`; and with a present doc text, `str` return annotation and
every parameter annotation accepted by the compiler, it succeeds. -/
theorem construction_validation (f : PyFunction) :
    ((f.doc = none ∨ f.doc = some "") →
      Tool.init f =
        .error (.valueError "Tool functions must have a doc comment description")) ∧
    (¬(f.doc = none ∨ f.doc = some "") →
      f.returnAnnotation ≠ Annotation.plain .pyStr →
      Tool.init f = .error (.valueError "Tool functions must return a string")) ∧
    (¬(f.doc = none ∨ f.doc = some "") →
      f.returnAnnotation = Annotation.plain .pyStr →
      (∀ p ∈ f.params, ∃ s, convert_parameter p.annotation = .ok s) →
      ∃ t, Tool.init f = .ok t) := by
  have hfalsy : (f.doc.getD "" = "") ↔ (f.doc = none ∨ f.doc = some "") := by
    cases f.doc <;> simp
  refine ⟨fun hdoc => ?_, fun hdoc hret => ?_, fun hdoc hret hparams => ?_⟩
  · rw [Tool.init, if_pos (hfalsy.mpr hdoc)]
  · rw [Tool.init, if_neg (fun hc => hdoc (hfalsy.mp hc)), if_pos hret]
  · obtain ⟨props, hprops⟩ := convertParams_ok_of_forall f.params hparams
    refine ⟨⟨f, mkSchema f props⟩, ?_⟩
    rw [Tool.init, if_neg (fun hc => hdoc (hfalsy.mp hc)),
        if_neg (fun hc => hc hret), hprops]

/-- Witness for C6 at the callables of `test_missing_description`,
`test_missing_return` and `test_safe_call`. -/
theorem construction_validation_witness :
    Tool.init fNoDoc =
      .error (.valueError "Tool functions must have a doc comment description") ∧
    Tool.init fBadRet =
      .error (.valueError "Tool functions must return a string") ∧
    ∃ t, Tool.init fW = .ok t :=
  ⟨(construction_validation fNoDoc).1 (Or.inl rfl),
   (construction_validation fBadRet).2.1 (by simp [fBadRet]) (by simp [fBadRet]),
   (construction_validation fW).2.2 (by simp [fW]) rfl
     (by
       intro p hp
       simp only [fW, List.mem_singleton] at hp
       subst hp
       exact ⟨_, rfl⟩)⟩

/-- C1: `safe_call` is a total function of the argument string — no case
is left to a caller-visible failure.  Whatever `json.loads` does on the
string: if decoding raises, if decoding succeeds but keyword binding
raises (missing required key, unexpected key, non-mapping argument), or
if the callable's body raises, `safe_call` returns `format_exception` of
the exception, which is the JSON encoding of
`{"is_error": true, "exception": repr(e)}`; if the body completes
normally, its string is returned verbatim. -/
theorem safe_call_total_and_payload (t : Tool)
    (loads : String → Except PyErr JValue) (s : String) :
    (∀ e, loads s = .error e → t.safe_call loads s = format_exception e) ∧
    (∀ v e, loads s = .ok v → bindKwargs t.function v = .error e →
      t.safe_call loads s = format_exception e) ∧
    (∀ v kw e, loads s = .ok v → bindKwargs t.function v = .ok kw →
      t.function.body kw = .error e →
      t.safe_call loads s = format_exception e) ∧
    (∀ v kw r, loads s = .ok v → bindKwargs t.function v = .ok kw →
      t.function.body kw = .ok r → t.safe_call loads s = r) ∧
    (∀ e, format_exception e =
      jsonDumps (.obj [("is_error", .bool true),
                       ("exception", .str e.reprStr)])) := by
  refine ⟨fun e h1 => ?_, fun v e h1 h2 => ?_, fun v kw e h1 h2 h3 => ?_,
          fun v kw r h1 h2 h3 => ?_, fun e => rfl⟩
  · simp [Tool.safe_call, h1]
  · simp [Tool.safe_call, h1, h2]
  · simp [Tool.safe_call, h1, h2, h3]
  · simp [Tool.safe_call, h1, h2, h3]

/-- Witness for C1: the four outcomes of `test_safe_call` on the tool of
`fW` — decode failure, missing required key, body exception, and normal
completion. -/
theorem safe_call_total_witness :
    toolW.safe_call loadsW "bad" = format_exception
      ⟨"JSONDecodeError(\x27Expecting value: line 1 column 1 (char 0)\x27)"⟩ ∧
    toolW.safe_call loadsW "E" = format_exception (missingArgError "tool" ["a"]) ∧
    toolW.safe_call loadsW "A7" = format_exception ⟨"ValueError(\x27boom\x27)"⟩ ∧
    toolW.safe_call loadsW "A1" = "output" :=
  ⟨(safe_call_total_and_payload toolW loadsW "bad").1 _ rfl,
   (safe_call_total_and_payload toolW loadsW "E").2.1 _ _ rfl rfl,
   (safe_call_total_and_payload toolW loadsW "A7").2.2.1 _ _ _ rfl rfl rfl,
   (safe_call_total_and_payload toolW loadsW "A1").2.2.2.1 _ _ _ rfl rfl rfl⟩

/-- Counterexample to C9 as stated: the success path's output is not
disjoint from the error-payload shape.  `fEcho` satisfies the whole
construction contract, its body completes normally, and the string
`safe_call` returns verbatim is exactly an error payload
`format_exception` would produce. -/
theorem success_output_not_disjoint_counterexample :
    Tool.init fEcho = .ok toolEcho ∧
    toolEcho.function.body [] = .ok (format_exception ⟨"ValueError(\x27boom\x27)"⟩) ∧
    Tool.safe_call toolEcho (fun _ => .ok (.obj [])) "\x7b\x7d" =
      format_exception ⟨"ValueError(\x27boom\x27)"⟩ :=
  ⟨rfl, rfl, rfl⟩

/-- C9 amended: whenever decoding and binding succeed and the body
completes normally, `safe_call` returns the body's string verbatim, with
no transformation; but nothing makes this success output disjoint from
the error-payload shape — a callable may itself return an error-shaped
string, which is then indistinguishable from a failure. -/
theorem success_returns_verbatim (t : Tool)
    (loads : String → Except PyErr JValue) (s : String) (v : JValue)
    (kw : List (String × JValue)) (r : String)
    (h1 : loads s = .ok v) (h2 : bindKwargs t.function v = .ok kw)
    (h3 : t.function.body kw = .ok r) :
    t.safe_call loads s = r := by
  simp [Tool.safe_call, h1, h2, h3]

/-- Witness for the amended C9: the round trip of §8, a `read_file`-like
tool whose stubbed body returns a fixed string, returned verbatim. -/
theorem success_returns_verbatim_witness :
    toolW.safe_call loadsW "A1" = "output" :=
  success_returns_verbatim toolW loadsW "A1" (.obj [("a", .num 1)])
    [("a", .num 1)] "output" rfl rfl rfl

/-- C10: when the argument string decodes to a JSON value that is not an
object (array, number, string, boolean or null), `safe_call` still does
not raise: the `TypeError` of binding a non-mapping as `**kwargs` is
caught and the error payload is returned. -/
theorem nonobject_json_error_payload (t : Tool)
    (loads : String → Except PyErr JValue) (s : String) (v : JValue)
    (h1 : loads s = .ok v) (h2 : v.isObj = false) :
    t.safe_call loads s = format_exception (mappingTypeError t.function.name v) := by
  cases v with
  | obj fields => simp [JValue.isObj] at h2
  | null => simp [Tool.safe_call, h1, bindKwargs]
  | bool b => simp [Tool.safe_call, h1, bindKwargs]
  | num n => simp [Tool.safe_call, h1, bindKwargs]
  | str s2 => simp [Tool.safe_call, h1, bindKwargs]
  | arr vs => simp [Tool.safe_call, h1, bindKwargs]

/-- Witness for C10: a JSON array argument (valid JSON, not an object)
produces the non-mapping `TypeError` payload. -/
theorem nonobject_json_error_payload_witness :
    toolW.safe_call (fun _ => .ok (.arr [.num 1])) "[1]" =
      format_exception (mappingTypeError "tool" (.arr [.num 1])) :=
  nonobject_json_error_payload toolW (fun _ => .ok (.arr [.num 1])) "[1]"
    (.arr [.num 1]) rfl rfl

end Llm
